import Mathlib

/-!
Verification of the asyncws WebSocket library (`asyncws/protocol.py`).

This file shallowly embeds the protocol engine of the library: the frame
codec (`send_frame` / `recv_frame`), the receive loop with fragmentation
reassembly and control-frame interleaving (`recv_entire_frame`), the close
status handling, the client handshake validation, and the `connect`
port / TLS selection.  Python byte strings are `List Nat` (each element a
byte value), Python `str` values are `List Char` (one element per code
point, matching Python's `len`), and exceptions are explicit error values.
Theorems about the claims of the specification follow the definitions.
-/

namespace Asyncws

/-- Python dynamic values that can sit in a `reason` slot or be returned by
`recv`: either a `str` (list of code points) or a `bytes` object. -/
inductive PyData where
  | str (s : List Char)
  | bytes (b : List Nat)
deriving DecidableEq

/-- Exceptions escaping the protocol layer: `ClosedException(status, reason)`
from `asyncws/exceptions.py`, or any other Python exception (modelled by its
`str(exp)` text), e.g. `IncompleteReadError` or `UnicodeDecodeError`. -/
inductive WSErr where
  | closed (status : Nat) (reason : PyData)
  | pyexc (msg : List Char)
deriving DecidableEq

deriving instance DecidableEq for Except

/-- Constant `_WEBSOCKET_MAX_PAYLOAD = 33554432` (protocol.py line 43). -/
def _WEBSOCKET_MAX_PAYLOAD : Nat := 33554432

/-- Constant `_WEBSOCKET_MAX_HEADER = 65536` (protocol.py line 44). -/
def _WEBSOCKET_MAX_HEADER : Nat := 65536

/-- Opcode constants `_STREAM`, `_TEXT`, `_BINARY`, `_CLOSE`, `_PING`,
`_PONG` (protocol.py lines 36-41). -/
def _STREAM : Nat := 0x0

def _TEXT : Nat := 0x1

def _BINARY : Nat := 0x2

def _CLOSE : Nat := 0x8

def _PING : Nat := 0x9

def _PONG : Nat := 0xA

/-- The list `_VALID_STATUS_CODES` (protocol.py line 47).  The source stores a flat
list whose last four elements are the numbers 3000, 3999, 4000, 4999 —
not the ranges 3000..3999 / 4000..4999. -/
def _VALID_STATUS_CODES : List Nat :=
  [1000, 1001, 1002, 1003, 1007, 1008, 1009, 1010, 1011, 3000, 3999, 4000, 4999]

/-- Big-endian interpretation of a byte string, as done by
`struct.unpack_from` with formats `!H` and `!Q`. -/
def bytesToNatBE (bs : List Nat) : Nat :=
  bs.foldl (fun a b => a * 256 + b) 0

/-- Encoding `struct.pack("!H", n)`: two big-endian bytes. -/
def pack2 (n : Nat) : List Nat :=
  [n / 256 % 256, n % 256]

/-- Encoding `struct.pack("!Q", n)`: eight big-endian bytes. -/
def pack8 (n : Nat) : List Nat :=
  [n / 2 ^ 56 % 256, n / 2 ^ 48 % 256, n / 2 ^ 40 % 256, n / 2 ^ 32 % 256,
   n / 2 ^ 24 % 256, n / 2 ^ 16 % 256, n / 2 ^ 8 % 256, n % 256]

/-- Masking as in protocol.py lines 518 and 582:
`bytes(b ^ mask[i % 4] for i, b in enumerate(data))`. -/
def xorMask (key : List Nat) (data : List Nat) : List Nat :=
  data.mapIdx (fun i b => b ^^^ key.getD (i % 4) 0)

/-!
UTF-8.  The source uses Python's incremental UTF-8 codec
(`codecs.getincrementaldecoder('utf-8')`) and `bytes.decode('utf-8')` /
`str.encode('utf-8')`; the spec lists UTF-8 (incremental) decoding among the
external primitives.  `utf8Core` is that primitive: it decodes a byte list,
returning the decoded code points and, when `final` is false, the trailing
bytes of an incomplete sequence kept as decoder state; malformed input is an
error (`UnicodeDecodeError`).
-/

/-- Prepend a decoded code point to a decoder result. -/
def utf8Cons (c : Char) : Except Unit (List Char × List Nat) → Except Unit (List Char × List Nat)
  | .ok (cs, p) => .ok (c :: cs, p)
  | .error e => .error e

/-- UTF-8 decoder core.  With `final = true` an incomplete trailing sequence
is an error (as in `bytes.decode` and the incremental decoder's final call);
with `final = false` it is returned as pending state. -/
def utf8Core : List Nat → Bool → Except Unit (List Char × List Nat)
  | [], _ => .ok ([], [])
  | b :: rest, final =>
    if b < 128 then utf8Cons (Char.ofNat b) (utf8Core rest final)
    else if b < 194 then .error ()
    else if b ≤ 223 then
      match rest with
      | [] => if final then .error () else .ok ([], [b])
      | c1 :: rest1 =>
        if 128 ≤ c1 ∧ c1 ≤ 191 then
          utf8Cons (Char.ofNat ((b - 192) * 64 + (c1 - 128))) (utf8Core rest1 final)
        else .error ()
    else if b ≤ 239 then
      match rest with
      | [] => if final then .error () else .ok ([], [b])
      | c1 :: rest1 =>
        if (if b = 224 then 160 else 128) ≤ c1 ∧ c1 ≤ (if b = 237 then 159 else 191) then
          match rest1 with
          | [] => if final then .error () else .ok ([], [b, c1])
          | c2 :: rest2 =>
            if 128 ≤ c2 ∧ c2 ≤ 191 then
              utf8Cons (Char.ofNat ((b - 224) * 4096 + (c1 - 128) * 64 + (c2 - 128)))
                (utf8Core rest2 final)
            else .error ()
        else .error ()
    else if b ≤ 244 then
      match rest with
      | [] => if final then .error () else .ok ([], [b])
      | c1 :: rest1 =>
        if (if b = 240 then 144 else 128) ≤ c1 ∧ c1 ≤ (if b = 244 then 143 else 191) then
          match rest1 with
          | [] => if final then .error () else .ok ([], [b, c1])
          | c2 :: rest2 =>
            if 128 ≤ c2 ∧ c2 ≤ 191 then
              match rest2 with
              | [] => if final then .error () else .ok ([], [b, c1, c2])
              | c3 :: rest3 =>
                if 128 ≤ c3 ∧ c3 ≤ 191 then
                  utf8Cons (Char.ofNat ((b - 240) * 262144 + (c1 - 128) * 4096 +
                    (c2 - 128) * 64 + (c3 - 128))) (utf8Core rest3 final)
                else .error ()
            else .error ()
        else .error ()
    else .error ()

/-- Python `bytes.decode('utf-8')`: full decode, errors on any malformed or
truncated input. -/
def utf8Full (bs : List Nat) : Except Unit (List Char) :=
  match utf8Core bs true with
  | .ok (cs, _) => .ok cs
  | .error e => .error e

/-- One call of the incremental decoder: decode `pending ++ input`, where
`pending` is the state held from the previous call. -/
def utf8IncDecode (pending : List Nat) (input : List Nat) (final : Bool) :
    Except Unit (List Char × List Nat) :=
  utf8Core (pending ++ input) final

/-- Python `str.encode('utf-8')` for one code point. -/
def utf8EncodeChar (c : Char) : List Nat :=
  let n := c.toNat
  if n < 128 then [n]
  else if n < 2048 then [192 + n / 64, 128 + n % 64]
  else if n < 65536 then [224 + n / 4096, 128 + n / 64 % 64, 128 + n % 64]
  else [240 + n / 262144, 128 + n / 4096 % 64, 128 + n / 64 % 64, 128 + n % 64]

/-- Python `str.encode('utf-8')`. -/
def utf8Encode : List Char → List Nat
  | [] => []
  | c :: cs => utf8EncodeChar c ++ utf8Encode cs

/-!
The frame codec: `send_frame` (protocol.py lines 485-524) and `recv_frame`
(protocol.py lines 527-585).  A transport reader is a `List Nat` of bytes;
a writer's output is the `List Nat` of bytes written.
-/

/-- Function `send_frame(writer, fin, opcode, data, mask, flush)` — the byte sequence
written to the transport.  Note line 491-492 of the source: the FIN wire bit
(0x80) is set when the `fin` argument is `False`.  Since the source draws the
mask key from `random.getrandbits(32)`, the four mask-key bytes are passed
here explicitly as `maskBits`. -/
def send_frame (fin : Bool) (opcode : Nat) (data : List Nat) (mask : Bool)
    (maskBits : List Nat) : List Nat :=
  let b1 := (if fin = false then 128 else 0) ||| opcode
  let b2m := if mask then 128 else 0
  let length := data.length
  let header :=
    if length ≤ 125 then [b1, b2m ||| length]
    else if 126 ≤ length ∧ length ≤ 65535 then [b1, b2m ||| 126] ++ pack2 length
    else [b1, b2m ||| 127] ++ pack8 length
  let payload := if mask then xorMask maskBits data else data
  header ++ (if mask then maskBits else []) ++ (if length > 0 then payload else [])

/-- The message text a failed `reader.readexactly` surfaces (the precise
text of Python's `IncompleteReadError` is irrelevant; only its being a
non-`ClosedException` exception matters). -/
def incompleteMsg : List Char := "IncompleteReadError".toList

/-- The message text a `UnicodeDecodeError` escaping the incremental decoder
surfaces. -/
def unicodeMsg : List Char := "UnicodeDecodeError".toList

/-- Read `reader.readexactly(n)`: exactly `n` bytes or an `IncompleteReadError`. -/
def readN (n : Nat) (s : List Nat) : Except WSErr (List Nat × List Nat) :=
  if n ≤ s.length then .ok (s.take n, s.drop n) else .error (.pyexc incompleteMsg)

/-- The opcode `if/elif` chain of `recv_frame` (protocol.py lines 541-554):
CLOSE, STREAM, TEXT and BINARY pass; PONG/PING additionally require
`length ≤ 125`; anything else is an unknown opcode. -/
def opcodeCheck (opcode len7 : Nat) : Except WSErr Unit :=
  if opcode = _CLOSE then .ok ()
  else if opcode = _STREAM then .ok ()
  else if opcode = _TEXT then .ok ()
  else if opcode = _BINARY then .ok ()
  else if opcode = _PONG ∨ opcode = _PING then
    if len7 > 125 then .error (.closed 1002 (.str "control frame length can not be > 125".toList))
    else .ok ()
  else .error (.closed 1002 (.str "unknown opcode".toList))

/-- Extended-length resolution of `recv_frame` (protocol.py lines 556-568). -/
def lenStage (len7 : Nat) (s : List Nat) : Except WSErr (Nat × List Nat) :=
  if len7 ≤ 125 then .ok (len7, s)
  else if len7 = 126 then
    match readN 2 s with
    | .ok (bs, s1) => .ok (bytesToNatBE bs, s1)
    | .error e => .error e
  else if len7 = 127 then
    match readN 8 s with
    | .ok (bs, s1) => .ok (bytesToNatBE bs, s1)
    | .error e => .error e
  else .error (.closed 1002 (.str "unknown payload length".toList))

/-- Mask-key read of `recv_frame` (protocol.py lines 573-576). -/
def maskStage (maskBit : Nat) (s : List Nat) : Except WSErr (Option (List Nat) × List Nat) :=
  if maskBit = 128 then
    match readN 4 s with
    | .ok (k, s1) => .ok (some k, s1)
    | .error e => .error e
  else .ok (none, s)

/-- Payload read and unmasking of `recv_frame` (protocol.py lines 578-583).
`if mask:` is Python truthiness: `None` is falsy, a 4-byte key is truthy. -/
def payloadStage (length : Nat) (maskKey : Option (List Nat)) (s : List Nat) :
    Except WSErr (List Nat × List Nat) :=
  if length > 0 then
    match readN length s with
    | .ok (p, s1) =>
      match maskKey with
      | some k => .ok (xorMask k p, s1)
      | none => .ok (p, s1)
    | .error e => .error e
  else .ok ([], s)

/-- Function `recv_frame(reader)` (protocol.py lines 527-585): returns
`(bool(fin), opcode, length, payload)` and the unread remainder of the
stream. -/
def recv_frame (s : List Nat) : Except WSErr ((Bool × Nat × Nat × List Nat) × List Nat) :=
  match s with
  | h1 :: h2 :: s1 =>
    let fin := h1 &&& 128
    let rsv := h1 &&& 112
    let opcode := h1 &&& 15
    let maskBit := h2 &&& 128
    let len7 := h2 &&& 127
    if rsv ≠ 0 then .error (.closed 1002 (.str "RSV bit must be 0".toList))
    else
      match opcodeCheck opcode len7 with
      | .error e => .error e
      | .ok _ =>
        match lenStage len7 s1 with
        | .error e => .error e
        | .ok (length, s2) =>
          if length > _WEBSOCKET_MAX_PAYLOAD then
            .error (.closed 1009 (.str "payload too large".toList))
          else
            match maskStage maskBit s2 with
            | .error e => .error e
            | .ok (maskKey, s3) =>
              match payloadStage length maskKey s3 with
              | .error e => .error e
              | .ok (payload, s4) => .ok ((decide (fin ≠ 0), opcode, length, payload), s4)
  | _ => .error (.pyexc incompleteMsg)

/-!
The receive loop `recv_entire_frame` (protocol.py lines 195-317) together
with `Websocket.close` (lines 112-127) and `send_close_frame`
(lines 473-482).
-/

/-- A call to `send_frame` made by the receive loop (the PONG reply at line
286, and the close frame sent through `ws.close` at line 228), recorded as
its arguments. -/
structure SendCall where
  fin : Bool
  opcode : Nat
  payload : List Nat
  mask : Bool
deriving DecidableEq

/-- Buffer `_frag_buffer`: `None` initially, a list of decoded string chunks for a
text message, or a bytearray for a binary message. -/
inductive FragBuf where
  | noneB
  | text (chunks : List (List Char))
  | bin (buf : List Nat)
deriving DecidableEq

/-- The local and connection state the receive loop works on:
`_frag_start`, `_frag_type`, `_frag_buffer`, the incremental decoder's
pending bytes, the connection's `_closed` and `_mask` flags, and the frames
sent on the writer so far. -/
structure LoopSt where
  fragStart : Bool
  fragType : Nat
  fragBuf : FragBuf
  decPending : List Nat
  wsClosed : Bool
  wsMask : Bool
  sent : List SendCall
deriving DecidableEq

/-- The loop-local state at the top of `recv_entire_frame`
(protocol.py lines 199-202) for a websocket with masking flag `mask` whose
close handshake has not started. -/
def initSt (mask : Bool) : LoopSt :=
  { fragStart := false, fragType := _BINARY, fragBuf := .noneB, decPending := [],
    wsClosed := false, wsMask := mask, sent := [] }

/-- Function `send_close_frame(writer, status, reason, mask)` (protocol.py lines
473-482): the close payload is the big-endian status followed by the reason,
UTF-8 encoded when it is a `str`. -/
def close_msg (status : Nat) (reason : PyData) : List Nat :=
  pack2 status ++ (match reason with
    | .str s => utf8Encode s
    | .bytes b => b)

/-- Method `Websocket.close(status, reason)` (protocol.py lines 112-127): sends a
close frame through `send_close_frame` unless `_closed` is already set. -/
def wsClose (st : LoopSt) (status : Nat) (reason : PyData) : LoopSt :=
  if st.wsClosed = false then
    { st with
      wsClosed := true,
      sent := st.sent ++ [⟨false, _CLOSE, close_msg status reason, st.wsMask⟩] }
  else st

/-- Outcome of one iteration of the `while True` loop body. -/
inductive StepOut where
  | ret (m : PyData) (st : LoopSt)
  | cont (st : LoopSt)
  | exc (e : WSErr) (st : LoopSt)
deriving DecidableEq

/-- The CLOSE branch of the loop (protocol.py lines 206-229). -/
def closeStep (frame : List Nat) (st : LoopSt) : StepOut :=
  let length := frame.length
  let (status, reason) :=
    if length = 0 then ((1000 : Nat), PyData.bytes [])
    else if length ≥ 2 then
      let status1 := bytesToNatBE (frame.take 2)
      let reason1 := frame.drop 2
      let status2 := if status1 ∈ _VALID_STATUS_CODES then status1 else 1002
      if reason1.length > 0 then
        match utf8Full reason1 with
        | .ok cs => (status2, PyData.str cs)
        | .error _ => ((1002 : Nat), PyData.bytes reason1)
      else (status2, PyData.bytes reason1)
    else ((1002 : Nat), PyData.bytes [])
  .exc (.closed status reason) (wsClose st status reason)

/-- The fragmentation branches for `fin == 0` (protocol.py lines 231-265). -/
def fragStep (opcode : Nat) (frame : List Nat) (st : LoopSt) : StepOut :=
  if opcode ≠ _STREAM then
    if opcode = _PING ∨ opcode = _PONG ∨ opcode = _CLOSE then
      .exc (.closed 1002 (.str "control messages can not be fragmented".toList)) st
    else
      if opcode = _TEXT then
        match utf8IncDecode [] frame false with
        | .error _ => .exc (.pyexc unicodeMsg) st
        | .ok (utf_str, pending) =>
          let chunks := if utf_str = [] then [] else [utf_str]
          let st1 := { st with
                       fragStart := true,
                       fragType := opcode,
                       fragBuf := .text chunks,
                       decPending := pending }
          if chunks.length > _WEBSOCKET_MAX_PAYLOAD then
            .exc (.closed 1009 (.str "payload too large".toList)) st1
          else .cont st1
      else
        let st1 := { st with
                     fragStart := true,
                     fragType := opcode,
                     fragBuf := .bin frame,
                     decPending := [] }
        if frame.length > _WEBSOCKET_MAX_PAYLOAD then
          .exc (.closed 1009 (.str "payload too large".toList)) st1
        else .cont st1
  else
    if st.fragStart = false then
      .exc (.closed 1002 (.str "fragmentation protocol error".toList)) st
    else if st.fragType = _TEXT then
      match st.fragBuf with
      | .text chunks =>
        match utf8IncDecode st.decPending frame false with
        | .error _ => .exc (.pyexc unicodeMsg) st
        | .ok (utf_str, pending) =>
          let chunks1 := chunks ++ (if utf_str = [] then [] else [utf_str])
          let st1 := { st with fragBuf := .text chunks1, decPending := pending }
          if chunks1.length > _WEBSOCKET_MAX_PAYLOAD then
            .exc (.closed 1009 (.str "payload too large".toList)) st1
          else .cont st1
      | _ => .exc (.pyexc "TypeError".toList) st
    else
      match st.fragBuf with
      | .bin buf =>
        let buf1 := buf ++ frame
        let st1 := { st with fragBuf := .bin buf1 }
        if buf1.length > _WEBSOCKET_MAX_PAYLOAD then
          .exc (.closed 1009 (.str "payload too large".toList)) st1
        else .cont st1
      | _ => .exc (.pyexc "TypeError".toList) st

/-- The `fin != 0` branches (protocol.py lines 266-301): final continuation,
PING, PONG, or a complete TEXT / BINARY message. -/
def finStep (opcode : Nat) (frame : List Nat) (st : LoopSt) : StepOut :=
  if opcode = _STREAM then
    if st.fragStart = false then
      .exc (.closed 1002 (.str "fragmentation protocol error".toList)) st
    else if st.fragType = _TEXT then
      match st.fragBuf with
      | .text chunks =>
        match utf8IncDecode st.decPending frame true with
        | .error _ => .exc (.pyexc unicodeMsg) st
        | .ok (utf_str, _) =>
          let joined := (chunks ++ [utf_str]).flatten
          if joined.length > _WEBSOCKET_MAX_PAYLOAD then
            .exc (.closed 1009 (.str "payload too large".toList)) st
          else .ret (.str joined) st
      | _ => .exc (.pyexc "TypeError".toList) st
    else
      match st.fragBuf with
      | .bin buf =>
        let buf1 := buf ++ frame
        if buf1.length > _WEBSOCKET_MAX_PAYLOAD then
          .exc (.closed 1009 (.str "payload too large".toList)) st
        else .ret (.bytes buf1) st
      | _ => .exc (.pyexc "TypeError".toList) st
  else if opcode = _PING then
    -- line 286: `yield from send_frame(ws.writer, False, _PONG, frame)` —
    -- the `mask` parameter is left at its default `False`
    .cont { st with sent := st.sent ++ [⟨false, _PONG, frame, false⟩] }
  else if opcode = _PONG then
    .cont st
  else
    if st.fragStart = true then
      .exc (.closed 1002 (.str "fragmentation protocol error".toList)) st
    else if opcode = _TEXT then
      match utf8Full frame with
      | .ok cs => .ret (.str cs) st
      | .error _ => .exc (.closed 1002 (.str "invalid utf-8 payload".toList)) st
    else .ret (.bytes frame) st

/-- One iteration of the loop body on a decoded frame. -/
def recv_step (fr : Bool × Nat × Nat × List Nat) (st : LoopSt) : StepOut :=
  let (fin, opcode, _length, frame) := fr
  if opcode = _CLOSE then closeStep frame st
  else if fin = false then fragStep opcode frame st
  else finStep opcode frame st

/-- Outcome of running the `while True` loop on a byte stream. -/
inductive LoopOut where
  | msg (m : PyData) (st : LoopSt)
  | fail (e : WSErr) (st : LoopSt)
  | fuelOut
deriving DecidableEq

/-- The `while True` loop of `recv_entire_frame` (protocol.py lines
204-301), with an explicit fuel bound on the number of iterations.  Each
iteration consumes at least the two header bytes, so fuel `s.length + 1`
never runs out (`recv_loop_no_fuelOut` below). -/
def recv_loop : Nat → List Nat → LoopSt → LoopOut
  | 0, _, _ => .fuelOut
  | fuel + 1, s, st =>
    match recv_frame s with
    | .error e => .fail e st
    | .ok (fr, rest) =>
      match recv_step fr st with
      | .ret m st1 => .msg m st1
      | .exc e st1 => .fail e st1
      | .cont st1 => recv_loop fuel rest st1

/-- What a `recv` call leaves behind: its return value, the connection's
`status` / `reason` attributes, whether `ws.writer.close()` was called,
the frames written, and the `_closed` flag. -/
structure RecvResult where
  result : Option PyData
  status : Nat
  reason : PyData
  writerClosed : Bool
  sent : List SendCall
  wsClosed : Bool
deriving DecidableEq

/-- Function `recv_entire_frame(ws)` (protocol.py lines 195-317) on a byte stream,
for a fresh websocket (`status = 1000`, `reason = ''`, `_closed = False`)
with masking flag `mask`.  The `try/except BaseException` handler at lines
303-317 closes the writer, records status and reason — the exception's own
for a `ClosedException`, else `1002` and `str(exp)` — and returns `None`. -/
def recv_entire_frame (s : List Nat) (mask : Bool) : RecvResult :=
  match recv_loop (s.length + 1) s (initSt mask) with
  | .msg m st =>
    { result := some m, status := 1000, reason := .str [], writerClosed := false,
      sent := st.sent, wsClosed := st.wsClosed }
  | .fail e st =>
    { result := none,
      status := match e with | .closed status _ => status | .pyexc _ => 1002,
      reason := match e with | .closed _ reason => reason | .pyexc m => .str m,
      writerClosed := true, sent := st.sent, wsClosed := st.wsClosed }
  | .fuelOut =>
    -- unreachable: see `recv_loop_no_fuelOut`
    { result := none, status := 0, reason := .str [], writerClosed := false,
      sent := [], wsClosed := false }

/-!
`connect` (protocol.py lines 319-354): scheme / port selection, and the
client handshake validation of `handshake_with_server` (lines 386-428).
-/

/-- Python truthiness of `url.port` (`None` and `0` are falsy). -/
def pyTruthyPort (p : Option Nat) : Bool :=
  match p with
  | none => false
  | some n => n ≠ 0

/-- The scheme component produced by `urllib.parse.urlparse`.  Modelled
from the spec: URL parsing is an external collaborator; by its contract the
scheme of a URL written `scheme://rest` is the part before the colon (so
`urlparse('wss://h/').scheme = 'wss'`, without the `://`). -/
def urlparse_scheme (u : String) : String :=
  (u.toList.takeWhile (fun c => c ≠ ':')).asString

/-- Python's `str.startswith`. -/
def pyStartswith (s p : String) : Bool :=
  p.toList.isPrefixOf s.toList

/-- The `(port, use_ssl)` computed by `connect` (protocol.py lines
332-342) from the parsed scheme and port.  Note line 339 tests
`url.scheme.startswith('wss://')`, and note that `use_ssl` is never passed
to `asyncio.open_connection` at line 344 — the connection is opened with
`host` and `port` only. -/
def connect_params (scheme : String) (urlPort : Option Nat) : Nat × Bool :=
  let port := if pyTruthyPort urlPort then urlPort.getD 0 else 80
  let use_ssl := pyStartswith scheme "wss://"
  let port := if use_ssl then (if pyTruthyPort urlPort = false then 443 else port) else port
  (port, use_ssl)

/-- Result of the accept-key validation in `handshake_with_server`
(protocol.py lines 417-423). -/
inductive ClientCheck where
  | ok
  | protocolErrorMissing
  | protocolErrorMismatch
  | attributeError
deriving DecidableEq

/-- The accept-key validation of the client handshake (protocol.py lines
417-423).  `digest` stands for the external primitive
`base64(SHA1(key + GUID))` (applied to strings); `key` is the locally
generated `Sec-WebSocket-Key` (always a string — line 390), `acceptKey` is
`response.getheader('sec-websocket-accept')`, `None` when the header is
absent.  Line 418 tests `if key is None` — the local key, not the header —
so a missing header reaches `accept_key.encode()` and raises
`AttributeError` instead of `ProtocolError`. -/
def clientAcceptCheck (digest : String → String) (key : String)
    (acceptKey : Option String) : ClientCheck :=
  if (some key).isNone then ClientCheck.protocolErrorMissing
  else
    match acceptKey with
    | none => ClientCheck.attributeError
    | some a => if a = digest key then ClientCheck.ok else ClientCheck.protocolErrorMismatch

/-!
Helper lemmas: bit extraction, big-endian packing, and exact reads.
-/

theorem land127_eq_mod (n : Nat) : n &&& 127 = n % 128 := by
  have h := Nat.and_pow_two_sub_one_eq_mod n 7
  norm_num at h
  exact h

theorem land127_of_lt {n : Nat} (h : n < 128) : n &&& 127 = n := by
  rw [land127_eq_mod]
  omega

theorem land128_of_lt {n : Nat} (h : n < 128) : n &&& 128 = 0 := by
  apply Nat.eq_of_testBit_eq
  intro i
  simp only [Nat.testBit_and, Nat.zero_testBit]
  by_cases hi : i = 7
  · subst hi
    rw [Nat.testBit_lt_two_pow h]
    simp
  · have h128 : (128 : Nat) = 2 ^ 7 := by norm_num
    rw [h128, Nat.testBit_two_pow_of_ne (by omega)]
    simp

theorem land127_le (n : Nat) : n &&& 127 ≤ 127 := Nat.and_le_right

theorem pack2_length (n : Nat) : (pack2 n).length = 2 := rfl

theorem pack8_length (n : Nat) : (pack8 n).length = 8 := rfl

theorem be_pack2 {n : Nat} (h : n < 65536) : bytesToNatBE (pack2 n) = n := by
  simp only [bytesToNatBE, pack2, List.foldl]
  omega

theorem be_pack8 {n : Nat} (h : n < 2 ^ 64) : bytesToNatBE (pack8 n) = n := by
  simp only [bytesToNatBE, pack8, List.foldl]
  norm_num at h ⊢
  omega

theorem readN_exact {data : List Nat} {n : Nat} (tail : List Nat) (h : data.length = n) :
    readN n (data ++ tail) = .ok (data, tail) := by
  simp only [readN, List.take_left' h, List.drop_left' h, List.length_append]
  rw [if_pos (by omega)]

/-- Exact read consuming the whole remaining stream. -/
theorem readN_all {data : List Nat} {n : Nat} (h : data.length = n) :
    readN n data = .ok (data, []) := by
  have h1 := @readN_exact data n [] h
  simpa using h1

theorem lenStage_small {len7 : Nat} (s : List Nat) (h : len7 ≤ 125) :
    lenStage len7 s = .ok (len7, s) := by
  simp [lenStage, h]

theorem lenStage_ext2 {n : Nat} (s : List Nat) (h : n < 65536) :
    lenStage 126 (pack2 n ++ s) = .ok (n, s) := by
  simp [lenStage, readN_exact s (pack2_length n), be_pack2 h]

theorem lenStage_ext8 {n : Nat} (s : List Nat) (h : n < 2 ^ 64) :
    lenStage 127 (pack8 n ++ s) = .ok (n, s) := by
  simp [lenStage, readN_exact s (pack8_length n), be_pack8 h]

theorem maskStage_zero (s : List Nat) : maskStage 0 s = .ok (none, s) := by
  simp [maskStage]

theorem payloadStage_exact {data : List Nat} (tail : List Nat) {n : Nat}
    (h : data.length = n) : payloadStage n none (data ++ tail) = .ok (data, tail) := by
  by_cases hz : n = 0
  · subst hz
    have hd : data = [] := List.length_eq_zero.mp h
    subst hd
    simp [payloadStage]
  · simp [payloadStage, Nat.pos_of_ne_zero hz, readN_exact tail h]

/-- Decoding a frame whose 7-bit length field is the payload length
(`len7 ≤ 125`), unmasked. -/
theorem recv_frame_small (b1 : Nat) (data tail : List Nat)
    (hrsv : b1 &&& 112 = 0)
    (hlen : data.length ≤ 125)
    (hop : opcodeCheck (b1 &&& 15) data.length = .ok ()) :
    recv_frame (b1 :: data.length :: (data ++ tail)) =
      .ok ((decide (b1 &&& 128 ≠ 0), b1 &&& 15, data.length, data), tail) := by
  have h7 : data.length &&& 127 = data.length := land127_of_lt (by omega)
  have h8 : data.length &&& 128 = 0 := land128_of_lt (by omega)
  have hmax : ¬ data.length > _WEBSOCKET_MAX_PAYLOAD := by
    simp only [_WEBSOCKET_MAX_PAYLOAD]
    omega
  simp [recv_frame, h7, h8, hrsv, hop, lenStage_small _ hlen, hmax,
    maskStage_zero, payloadStage_exact tail rfl]

/-- Decoding a frame with a 16-bit extended length, unmasked. -/
theorem recv_frame_ext2 (b1 : Nat) (data tail : List Nat)
    (hrsv : b1 &&& 112 = 0)
    (hlen : data.length < 65536)
    (hop : opcodeCheck (b1 &&& 15) 126 = .ok ()) :
    recv_frame (b1 :: 126 :: (pack2 data.length ++ (data ++ tail))) =
      .ok ((decide (b1 &&& 128 ≠ 0), b1 &&& 15, data.length, data), tail) := by
  have hmax : ¬ data.length > _WEBSOCKET_MAX_PAYLOAD := by
    simp only [_WEBSOCKET_MAX_PAYLOAD]
    omega
  have e1 : (126 : Nat) &&& 127 = 126 := rfl
  have e2 : (126 : Nat) &&& 128 = 0 := rfl
  simp [recv_frame, hrsv, hop, e1, e2, lenStage_ext2 _ hlen, hmax,
    maskStage_zero, payloadStage_exact tail rfl]

/-- Decoding a frame with a 64-bit extended length, unmasked. -/
theorem recv_frame_ext8 (b1 : Nat) (data tail : List Nat)
    (hrsv : b1 &&& 112 = 0)
    (hlen : data.length ≤ _WEBSOCKET_MAX_PAYLOAD)
    (hop : opcodeCheck (b1 &&& 15) 127 = .ok ()) :
    recv_frame (b1 :: 127 :: (pack8 data.length ++ (data ++ tail))) =
      .ok ((decide (b1 &&& 128 ≠ 0), b1 &&& 15, data.length, data), tail) := by
  have hlt : data.length < 2 ^ 64 := by
    simp only [_WEBSOCKET_MAX_PAYLOAD] at hlen
    norm_num
    omega
  have hmax : ¬ data.length > _WEBSOCKET_MAX_PAYLOAD := by omega
  have e1 : (127 : Nat) &&& 127 = 127 := rfl
  have e2 : (127 : Nat) &&& 128 = 0 := rfl
  simp [recv_frame, hrsv, hop, e1, e2, lenStage_ext8 _ hlt, hmax,
    maskStage_zero, payloadStage_exact tail rfl]

/-- The byte stream produced by the encoder for an unmasked frame, split by
payload-length range. -/
theorem send_frame_shape_small (fin : Bool) (opcode : Nat) (data : List Nat)
    (h : data.length ≤ 125) :
    send_frame fin opcode data false [] =
      ((if fin = false then 128 else 0) ||| opcode) :: data.length :: data := by
  by_cases hz : data.length = 0
  · have hd : data = [] := List.length_eq_zero.mp hz
    subst hd
    simp [send_frame]
  · simp [send_frame, h, Nat.pos_of_ne_zero hz]

theorem send_frame_shape_ext2 (fin : Bool) (opcode : Nat) (data : List Nat)
    (h1 : 126 ≤ data.length) (h2 : data.length ≤ 65535) :
    send_frame fin opcode data false [] =
      ((if fin = false then 128 else 0) ||| opcode) :: 126 :: (pack2 data.length ++ data) := by
  have hn : ¬ data.length ≤ 125 := by omega
  have hp : 0 < data.length := by omega
  simp [send_frame, hn, h1, h2, hp]

theorem send_frame_shape_ext8 (fin : Bool) (opcode : Nat) (data : List Nat)
    (h1 : 65536 ≤ data.length) :
    send_frame fin opcode data false [] =
      ((if fin = false then 128 else 0) ||| opcode) :: 127 :: (pack8 data.length ++ data) := by
  have hn : ¬ data.length ≤ 125 := by omega
  have hn2 : ¬ (126 ≤ data.length ∧ data.length ≤ 65535) := by omega
  have hp : 0 < data.length := by omega
  simp [send_frame, hn, hn2, hp]

theorem opcodeCheck_data {op l : Nat} (h : op = 0 ∨ op = 1 ∨ op = 2 ∨ op = 8) :
    opcodeCheck op l = .ok () := by
  rcases h with h | h | h | h <;> subst h <;> rfl

theorem opcodeCheck_ctl {op l : Nat} (h : op = 9 ∨ op = 10) (hl : l ≤ 125) :
    opcodeCheck op l = .ok () := by
  have hn : ¬ l > 125 := by omega
  rcases h with h | h <;> subst h <;>
    simp [opcodeCheck, _CLOSE, _STREAM, _TEXT, _BINARY, _PING, _PONG, hn]

/-!
C1: the decode-of-encode round trip.  `send_frame` writes the FIN wire bit
when its `fin` argument is `False` (protocol.py lines 491-492), so the
decoded `fin` flag is the negation of the encoded one; and a PING / PONG
frame whose payload exceeds 125 bytes is rejected by the decoder, so the
round trip only exists for control payloads of at most 125 bytes.
-/

/-- C1 (counterexample): encoding the frame with fin true, opcode TEXT and
payload "hi", then decoding the resulting bytes, does not yield the frame
back — the decoder reports `fin = false` —, so `decode(encode(frame)) =
frame` fails at this input. -/
theorem c1_counterexample :
    recv_frame (send_frame true _TEXT [104, 105] false []) =
      .ok ((false, 1, 2, [104, 105]), []) ∧
    decide (recv_frame (send_frame true _TEXT [104, 105] false []) =
      .ok ((true, 1, 2, [104, 105]), [])) = false := by
  constructor <;> rfl

/-- C1 (amended): for `rsv = 0` (automatic for these opcodes), opcode in
{0, 1, 2, 8, 9, 10}, payload length at most `MAX_PAYLOAD`, and — forced by
the decoder's control-length check — PING / PONG payloads of at most 125
bytes, decoding the encoder's unmasked output returns the same opcode,
length and payload, and the *negation* of the `fin` argument. -/
theorem c1_roundtrip (fin : Bool) (opcode : Nat) (data : List Nat)
    (hop : opcode = 0 ∨ opcode = 1 ∨ opcode = 2 ∨ opcode = 8 ∨ opcode = 9 ∨ opcode = 10)
    (hlen : data.length ≤ _WEBSOCKET_MAX_PAYLOAD)
    (hctl : opcode = 9 ∨ opcode = 10 → data.length ≤ 125) :
    recv_frame (send_frame fin opcode data false []) =
      .ok ((!fin, opcode, data.length, data), []) := by
  have hrsv : ((if fin = false then 128 else 0) ||| opcode) &&& 112 = 0 := by
    rcases hop with h | h | h | h | h | h <;> subst h <;> cases fin <;> rfl
  have hopeq : ((if fin = false then 128 else 0) ||| opcode) &&& 15 = opcode := by
    rcases hop with h | h | h | h | h | h <;> subst h <;> cases fin <;> rfl
  have hfin : decide ((((if fin = false then 128 else 0) ||| opcode) &&& 128) ≠ 0) = !fin := by
    rcases hop with h | h | h | h | h | h <;> subst h <;> cases fin <;> rfl
  rcases Nat.lt_or_ge data.length 126 with hsm | hbig
  · have hopc : opcodeCheck opcode data.length = .ok () := by
      rcases hop with h | h | h | h | h | h
      · exact opcodeCheck_data (by omega)
      · exact opcodeCheck_data (by omega)
      · exact opcodeCheck_data (by omega)
      · exact opcodeCheck_data (by omega)
      · exact opcodeCheck_ctl (by omega) (hctl (by omega))
      · exact opcodeCheck_ctl (by omega) (hctl (by omega))
    rw [send_frame_shape_small fin opcode data (by omega)]
    have h := recv_frame_small ((if fin = false then 128 else 0) ||| opcode) data []
      hrsv (by omega) (by rw [hopeq]; exact hopc)
    rw [List.append_nil] at h
    rw [h, hopeq, hfin]
  · have hnot : ¬ (opcode = 9 ∨ opcode = 10) := by
      intro hc
      have := hctl hc
      omega
    have hdata : opcode = 0 ∨ opcode = 1 ∨ opcode = 2 ∨ opcode = 8 := by
      rcases hop with h | h | h | h | h | h
      · exact Or.inl h
      · exact Or.inr (Or.inl h)
      · exact Or.inr (Or.inr (Or.inl h))
      · exact Or.inr (Or.inr (Or.inr h))
      · exact absurd (Or.inl h) hnot
      · exact absurd (Or.inr h) hnot
    rcases Nat.lt_or_ge data.length 65536 with hmid | hhuge
    · rw [send_frame_shape_ext2 fin opcode data (by omega) (by omega)]
      have h := recv_frame_ext2 ((if fin = false then 128 else 0) ||| opcode) data []
        hrsv (by omega) (by rw [hopeq]; exact opcodeCheck_data hdata)
      rw [List.append_nil] at h
      rw [h, hopeq, hfin]
    · rw [send_frame_shape_ext8 fin opcode data (by omega)]
      have h := recv_frame_ext8 ((if fin = false then 128 else 0) ||| opcode) data []
        hrsv hlen (by rw [hopeq]; exact opcodeCheck_data hdata)
      rw [List.append_nil] at h
      rw [h, hopeq, hfin]

/-- C1 (witness): the amended round trip at `fin = true`, `opcode = TEXT`,
payload `"hi"`. -/
theorem c1_roundtrip_witness :
    (_TEXT = 0 ∨ _TEXT = 1 ∨ _TEXT = 2 ∨ _TEXT = 8 ∨ _TEXT = 9 ∨ _TEXT = 10) ∧
    ([104, 105] : List Nat).length ≤ _WEBSOCKET_MAX_PAYLOAD ∧
    recv_frame (send_frame true _TEXT [104, 105] false []) =
      .ok ((!true, _TEXT, ([104, 105] : List Nat).length, [104, 105]), []) :=
  ⟨by decide, by decide,
    c1_roundtrip true _TEXT [104, 105] (by decide) (by decide) (by decide)⟩

/-- C2: the first header byte written by `send_frame`.  The source sets the
0x80 FIN wire bit when `fin` is `False`: a frame sent with `fin = true`
has first byte `0x01`, one sent with `fin = false` has first byte `0x81` —
the opposite of the claimed `(0x80 if fin else 0) | opcode`. -/
theorem c2_fin_bit_inverted :
    send_frame true _TEXT [] false [] = [1, 0] ∧
    send_frame false _TEXT [] false [] = [129, 0] := by
  constructor <;> rfl

/-!
C4: the control-length check of `recv_frame` covers only PING and PONG
(protocol.py line 549); a CLOSE frame takes the `pass` branch at line 541
and is decoded whatever its length field says.
-/

/-- C4 (counterexample): a CLOSE frame (opcode 8) with 7-bit length field
126 is decoded successfully — the claimed `1002` "control frame length can
not be > 125" failure does not happen for opcode 8. -/
theorem c4_counterexample :
    recv_frame [136, 126, 0, 3, 65, 66, 67] = .ok ((true, 8, 3, [65, 66, 67]), []) ∧
    decide (recv_frame [136, 126, 0, 3, 65, 66, 67] =
      .error (.closed 1002 (.str "control frame length can not be > 125".toList))) = false := by
  constructor <;> rfl

/-- C4 (amended): for PING (9) and PONG (10) frames — but not CLOSE (8) —
a 7-bit length field above 125 makes `recv_frame` fail with close code 1002
and reason "control frame length can not be > 125". -/
theorem c4_ping_pong_length (h1 h2 : Nat) (rest : List Nat)
    (hrsv : h1 &&& 112 = 0)
    (hop : h1 &&& 15 = 9 ∨ h1 &&& 15 = 10)
    (hlen : h2 &&& 127 > 125) :
    recv_frame (h1 :: h2 :: rest) =
      .error (.closed 1002 (.str "control frame length can not be > 125".toList)) := by
  have hopc : opcodeCheck (h1 &&& 15) (h2 &&& 127) =
      .error (.closed 1002 (.str "control frame length can not be > 125".toList)) := by
    rcases hop with h | h <;> rw [h] <;>
      simp [opcodeCheck, _CLOSE, _STREAM, _TEXT, _BINARY, _PING, _PONG, hlen]
  simp [recv_frame, hrsv, hopc]

/-- C4 (witness): a PING frame with 7-bit length field 126 (header bytes
`0x89 0x7E`) is rejected. -/
theorem c4_ping_pong_length_witness :
    (137 : Nat) &&& 112 = 0 ∧ (126 : Nat) &&& 127 > 125 ∧
    recv_frame [137, 126, 0, 3] =
      .error (.closed 1002 (.str "control frame length can not be > 125".toList)) :=
  ⟨by decide, by decide, c4_ping_pong_length 137 126 [0, 3] (by decide) (by decide) (by decide)⟩

/-!
C10: the `else: raise ClosedException(1002, 'unknown payload length')`
branch at protocol.py line 568 is dead code, because
`length = h2 & 0x7F ≤ 127` always falls in one of the three cases.
-/

/-- Recognizes the error raised by the length-dispatch `else` branch
(protocol.py line 568). -/
def isUnknownLenErr (r : Except WSErr ((Bool × Nat × Nat × List Nat) × List Nat)) : Bool :=
  match r with
  | .error (.closed code (.str msg)) =>
    decide (code = 1002) && decide (msg = "unknown payload length".toList)
  | _ => false

theorem opcodeCheck_error_cases {op l : Nat} {e : WSErr}
    (h : opcodeCheck op l = .error e) :
    e = .closed 1002 (.str "control frame length can not be > 125".toList) ∨
    e = .closed 1002 (.str "unknown opcode".toList) := by
  unfold opcodeCheck at h
  split_ifs at h <;> simp_all

theorem readN_error_cases {n : Nat} {s : List Nat} {e : WSErr}
    (h : readN n s = .error e) : e = .pyexc incompleteMsg := by
  unfold readN at h
  split_ifs at h
  simp_all

theorem lenStage_error_cases {l7 : Nat} {s : List Nat} {e : WSErr}
    (hle : l7 ≤ 127) (h : lenStage l7 s = .error e) : e = .pyexc incompleteMsg := by
  unfold lenStage at h
  split_ifs at h with hc1 hc2 hc3
  · cases hr : readN 2 s with
    | ok p => rw [hr] at h; simp at h
    | error e1 =>
      rw [hr] at h
      simp at h
      subst h
      exact readN_error_cases hr
  · cases hr : readN 8 s with
    | ok p => rw [hr] at h; simp at h
    | error e1 =>
      rw [hr] at h
      simp at h
      subst h
      exact readN_error_cases hr
  · exfalso
    omega

theorem maskStage_error_cases {mb : Nat} {s : List Nat} {e : WSErr}
    (h : maskStage mb s = .error e) : e = .pyexc incompleteMsg := by
  unfold maskStage at h
  split_ifs at h
  cases hr : readN 4 s with
  | ok p => rw [hr] at h; simp at h
  | error e1 =>
    rw [hr] at h
    simp at h
    subst h
    exact readN_error_cases hr

theorem payloadStage_error_cases {n : Nat} {mk : Option (List Nat)} {s : List Nat}
    {e : WSErr} (h : payloadStage n mk s = .error e) : e = .pyexc incompleteMsg := by
  unfold payloadStage at h
  split_ifs at h
  cases hr : readN n s with
  | ok p =>
    rw [hr] at h
    cases mk <;> simp at h
  | error e1 =>
    rw [hr] at h
    simp at h
    subst h
    exact readN_error_cases hr

/-- C10: the "unknown payload length" branch of `recv_frame` is
unreachable — no input byte stream makes `recv_frame` return that error,
since the 7-bit length field `h2 & 0x7F` is always at most 127 and is
covered by the `≤ 125`, `= 126`, `= 127` cases. -/
theorem c10_unknown_length_unreachable (s : List Nat) :
    isUnknownLenErr (recv_frame s) = false := by
  match s with
  | [] => rfl
  | [h1] => rfl
  | h1 :: h2 :: s1 =>
    by_cases hrsv : h1 &&& 112 ≠ 0
    · simp [recv_frame, hrsv, isUnknownLenErr]
    · cases hoc : opcodeCheck (h1 &&& 15) (h2 &&& 127) with
      | error e =>
        rcases opcodeCheck_error_cases hoc with he | he <;> subst he <;>
          simp [recv_frame, hrsv, hoc, isUnknownLenErr]
      | ok u =>
        cases hls : lenStage (h2 &&& 127) s1 with
        | error e =>
          have he := lenStage_error_cases (land127_le h2) hls
          subst he
          simp [recv_frame, hrsv, hoc, hls, isUnknownLenErr]
        | ok p =>
          obtain ⟨length, s2⟩ := p
          by_cases hmax : length > _WEBSOCKET_MAX_PAYLOAD
          · simp [recv_frame, hrsv, hoc, hls, hmax, isUnknownLenErr]
          · cases hms : maskStage (h2 &&& 128) s2 with
            | error e =>
              have he := maskStage_error_cases hms
              subst he
              simp [recv_frame, hrsv, hoc, hls, hmax, hms, isUnknownLenErr]
            | ok q =>
              obtain ⟨mk, s3⟩ := q
              cases hps : payloadStage length mk s3 with
              | error e =>
                have he := payloadStage_error_cases hps
                subst he
                simp [recv_frame, hrsv, hoc, hls, hmax, hms, hps, isUnknownLenErr]
              | ok r =>
                simp [recv_frame, hrsv, hoc, hls, hmax, hms, hps, isUnknownLenErr]

/-!
The receive loop: fuel adequacy.  Every successful `recv_frame` consumes at
least the two header bytes, so the loop runs at most `s.length / 2 + 1`
iterations; with fuel `s.length + 1` the `fuelOut` case is unreachable.
-/

theorem readN_ok_length {n : Nat} {s p s1 : List Nat}
    (h : readN n s = .ok (p, s1)) : s1.length ≤ s.length := by
  unfold readN at h
  split_ifs at h
  simp only [Except.ok.injEq, Prod.mk.injEq] at h
  obtain ⟨h1, h2⟩ := h
  subst h2
  simp [List.length_drop]

theorem lenStage_ok_length {l7 : Nat} {s : List Nat} {len : Nat} {s1 : List Nat}
    (h : lenStage l7 s = .ok (len, s1)) : s1.length ≤ s.length := by
  unfold lenStage at h
  split_ifs at h with hc1 hc2 hc3
  · simp only [Except.ok.injEq, Prod.mk.injEq] at h
    obtain ⟨h1, h2⟩ := h
    subst h2
    exact Nat.le_refl _
  · cases hr : readN 2 s with
    | ok p =>
      obtain ⟨bs, s2⟩ := p
      rw [hr] at h
      simp only [Except.ok.injEq, Prod.mk.injEq] at h
      obtain ⟨h1, h2⟩ := h
      subst h2
      exact readN_ok_length hr
    | error e1 => rw [hr] at h; simp at h
  · cases hr : readN 8 s with
    | ok p =>
      obtain ⟨bs, s2⟩ := p
      rw [hr] at h
      simp only [Except.ok.injEq, Prod.mk.injEq] at h
      obtain ⟨h1, h2⟩ := h
      subst h2
      exact readN_ok_length hr
    | error e1 => rw [hr] at h; simp at h

theorem maskStage_ok_length {mb : Nat} {s : List Nat} {mk : Option (List Nat)}
    {s1 : List Nat} (h : maskStage mb s = .ok (mk, s1)) : s1.length ≤ s.length := by
  unfold maskStage at h
  split_ifs at h
  · cases hr : readN 4 s with
    | ok p =>
      obtain ⟨k, s2⟩ := p
      rw [hr] at h
      simp only [Except.ok.injEq, Prod.mk.injEq] at h
      obtain ⟨h1, h2⟩ := h
      subst h2
      exact readN_ok_length hr
    | error e1 => rw [hr] at h; simp at h
  · simp only [Except.ok.injEq, Prod.mk.injEq] at h
    obtain ⟨h1, h2⟩ := h
    subst h2
    exact Nat.le_refl _

theorem payloadStage_ok_length {n : Nat} {mk : Option (List Nat)} {s p s1 : List Nat}
    (h : payloadStage n mk s = .ok (p, s1)) : s1.length ≤ s.length := by
  unfold payloadStage at h
  split_ifs at h
  · cases hr : readN n s with
    | ok q =>
      obtain ⟨p0, s2⟩ := q
      rw [hr] at h
      cases mk with
      | none =>
        simp only [Except.ok.injEq, Prod.mk.injEq] at h
        obtain ⟨h1, h2⟩ := h
        subst h2
        exact readN_ok_length hr
      | some k =>
        simp only [Except.ok.injEq, Prod.mk.injEq] at h
        obtain ⟨h1, h2⟩ := h
        subst h2
        exact readN_ok_length hr
    | error e1 => rw [hr] at h; simp at h
  · simp only [Except.ok.injEq, Prod.mk.injEq] at h
    obtain ⟨h1, h2⟩ := h
    subst h2
    exact Nat.le_refl _

/-- A successfully decoded frame consumes at least its two header bytes. -/
theorem recv_frame_consumes {s : List Nat} {fr : Bool × Nat × Nat × List Nat}
    {rest : List Nat} (h : recv_frame s = .ok (fr, rest)) : rest.length < s.length := by
  match s with
  | [] => simp [recv_frame] at h
  | [h1] => simp [recv_frame] at h
  | h1 :: h2 :: s1 =>
    by_cases hrsv : h1 &&& 112 ≠ 0
    · simp [recv_frame, hrsv] at h
    · cases hoc : opcodeCheck (h1 &&& 15) (h2 &&& 127) with
      | error e => simp [recv_frame, hrsv, hoc] at h
      | ok u =>
        cases hls : lenStage (h2 &&& 127) s1 with
        | error e => simp [recv_frame, hrsv, hoc, hls] at h
        | ok p =>
          obtain ⟨length, s2⟩ := p
          have l1 : s2.length ≤ s1.length := lenStage_ok_length hls
          by_cases hmax : length > _WEBSOCKET_MAX_PAYLOAD
          · simp [recv_frame, hrsv, hoc, hls, hmax] at h
          · cases hms : maskStage (h2 &&& 128) s2 with
            | error e => simp [recv_frame, hrsv, hoc, hls, hmax, hms] at h
            | ok q =>
              obtain ⟨mk, s3⟩ := q
              have l2 : s3.length ≤ s2.length := maskStage_ok_length hms
              cases hps : payloadStage length mk s3 with
              | error e => simp [recv_frame, hrsv, hoc, hls, hmax, hms, hps] at h
              | ok r =>
                obtain ⟨payload, s4⟩ := r
                have l3 : s4.length ≤ s3.length := payloadStage_ok_length hps
                simp [recv_frame, hrsv, hoc, hls, hmax, hms, hps] at h
                obtain ⟨h1e, h2e⟩ := h
                subst h2e
                simp only [List.length_cons]
                omega

/-- Unfolding: a loop step that continues. -/
theorem recv_loop_cont {fuel : Nat} {s rest : List Nat} {st st1 : LoopSt}
    {fr : Bool × Nat × Nat × List Nat}
    (hrf : recv_frame s = .ok (fr, rest)) (hst : recv_step fr st = .cont st1) :
    recv_loop (fuel + 1) s st = recv_loop fuel rest st1 := by
  simp [recv_loop, hrf, hst]

/-- Unfolding: a loop step that returns a message. -/
theorem recv_loop_ret {fuel : Nat} {s rest : List Nat} {st st1 : LoopSt}
    {fr : Bool × Nat × Nat × List Nat} {m : PyData}
    (hrf : recv_frame s = .ok (fr, rest)) (hst : recv_step fr st = .ret m st1) :
    recv_loop (fuel + 1) s st = .msg m st1 := by
  simp [recv_loop, hrf, hst]

/-- Unfolding: a loop step that raises. -/
theorem recv_loop_exc {fuel : Nat} {s rest : List Nat} {st st1 : LoopSt}
    {fr : Bool × Nat × Nat × List Nat} {e : WSErr}
    (hrf : recv_frame s = .ok (fr, rest)) (hst : recv_step fr st = .exc e st1) :
    recv_loop (fuel + 1) s st = .fail e st1 := by
  simp [recv_loop, hrf, hst]

/-- With fuel exceeding the stream length, the loop never runs out. -/
theorem recv_loop_no_fuelOut {fuel : Nat} :
    ∀ {s : List Nat} {st : LoopSt}, s.length < fuel →
      recv_loop fuel s st ≠ .fuelOut := by
  induction fuel with
  | zero => intro s st hlt; omega
  | succ f ih =>
    intro s st hlt
    cases hrf : recv_frame s with
    | error e => simp [recv_loop, hrf]
    | ok p =>
      obtain ⟨fr, rest⟩ := p
      cases hst : recv_step fr st with
      | ret m st1 => simp [recv_loop, hrf, hst]
      | exc e st1 => simp [recv_loop, hrf, hst]
      | cont st1 =>
        rw [recv_loop_cont hrf hst]
        have hcons := recv_frame_consumes hrf
        exact ih (by omega)

/-- Fuel irrelevance: once the loop terminates within some fuel, more fuel
gives the same outcome. -/
theorem recv_loop_mono {fuel : Nat} :
    ∀ {g : Nat} {s : List Nat} {st : LoopSt}, recv_loop fuel s st ≠ .fuelOut →
      fuel ≤ g → recv_loop g s st = recv_loop fuel s st := by
  induction fuel with
  | zero => intro g s st hne hle; exact absurd rfl hne
  | succ f ih =>
    intro g s st hne hle
    obtain ⟨g1, rfl⟩ : ∃ g1, g = g1 + 1 := ⟨g - 1, by omega⟩
    cases hrf : recv_frame s with
    | error e => simp [recv_loop, hrf]
    | ok p =>
      obtain ⟨fr, rest⟩ := p
      cases hst : recv_step fr st with
      | ret m st1 => rw [recv_loop_ret hrf hst, recv_loop_ret hrf hst]
      | exc e st1 => rw [recv_loop_exc hrf hst, recv_loop_exc hrf hst]
      | cont st1 =>
        rw [recv_loop_cont hrf hst, recv_loop_cont hrf hst]
        rw [recv_loop_cont hrf hst] at hne
        exact ih hne (by omega)

/-!
C9: failure semantics of `recv` — the `except BaseException` handler of
`recv_entire_frame` (protocol.py lines 303-317).
-/

/-- C9: whenever `recv` ends without a message (`None` returned), the
transport has been closed and the connection records the protocol error's
own `(status, reason)` when the failure was a `ClosedException`, and
`1002` with the exception text otherwise; no exception propagates (the
model of `recv_entire_frame` is total). -/
theorem c9_recv_failure (s : List Nat) (mask : Bool)
    (h : (recv_entire_frame s mask).result = none) :
    (recv_entire_frame s mask).writerClosed = true ∧
    ∃ e st, recv_loop (s.length + 1) s (initSt mask) = .fail e st ∧
      ((∃ status reason, e = .closed status reason ∧
          (recv_entire_frame s mask).status = status ∧
          (recv_entire_frame s mask).reason = reason) ∨
       (∃ msg, e = .pyexc msg ∧
          (recv_entire_frame s mask).status = 1002 ∧
          (recv_entire_frame s mask).reason = .str msg)) := by
  have hnf : recv_loop (s.length + 1) s (initSt mask) ≠ .fuelOut :=
    recv_loop_no_fuelOut (by omega)
  cases hl : recv_loop (s.length + 1) s (initSt mask) with
  | msg m st => simp [recv_entire_frame, hl] at h
  | fuelOut => exact absurd hl hnf
  | fail e st =>
    refine ⟨by simp [recv_entire_frame, hl], e, st, rfl, ?_⟩
    cases e with
    | closed status reason =>
      exact Or.inl ⟨status, reason, rfl, by simp [recv_entire_frame, hl],
        by simp [recv_entire_frame, hl]⟩
    | pyexc msg =>
      exact Or.inr ⟨msg, rfl, by simp [recv_entire_frame, hl],
        by simp [recv_entire_frame, hl]⟩

/-- C9 (witness): on an empty byte stream, `recv` fails with the transport
`IncompleteReadError`, surfaced as `None` with status `1002` and the
exception text as reason. -/
theorem c9_recv_failure_witness :
    (recv_entire_frame [] false).result = none ∧
    ((recv_entire_frame [] false).writerClosed = true ∧
    ∃ e st, recv_loop (([] : List Nat).length + 1) [] (initSt false) = .fail e st ∧
      ((∃ status reason, e = .closed status reason ∧
          (recv_entire_frame [] false).status = status ∧
          (recv_entire_frame [] false).reason = reason) ∨
       (∃ msg, e = .pyexc msg ∧
          (recv_entire_frame [] false).status = 1002 ∧
          (recv_entire_frame [] false).reason = .str msg))) :=
  ⟨by decide, c9_recv_failure [] false (by decide)⟩

/-!
C3: close-status handling.  `_VALID_STATUS_CODES` is the literal list
`[1000, 1001, 1002, 1003, 1007, 1008, 1009, 1010, 1011, 3000, 3999, 4000,
4999]` and the membership test `status not in _VALID_STATUS_CODES` is list
membership, so the ranges 3000..3999 and 4000..4999 are represented only by
their endpoints: wire status 3500 is remapped to 1002.
-/

/-- C3: receiving a CLOSE frame with big-endian payload status 3500 — a
status inside 3000..3999, which the claim says is surfaced unchanged —
surfaces status 1002: the code's list-membership test accepts only the
endpoint values of the two ranges. -/
theorem c3_close_3500 :
    bytesToNatBE [13, 172] = 3500 ∧
    decide ((3500 : Nat) ∈ _VALID_STATUS_CODES) = false ∧
    recv_entire_frame [136, 2, 13, 172] false =
      { result := none, status := 1002, reason := .bytes [], writerClosed := true,
        sent := [⟨false, _CLOSE, [3, 234], false⟩], wsClosed := true } :=
  ⟨rfl, rfl, rfl⟩

/-!
C6: PING handling.  The PONG reply at protocol.py line 286 calls
`send_frame(ws.writer, False, _PONG, frame)` — leaving `mask` at its
default `False` — so even a client-role endpoint (whose `_mask` is `True`)
replies with an unmasked PONG.
-/

/-- C6: a client endpoint (`mask = true`) receiving TEXT-fragment "he",
then PING "ab", then final continuation "llo" delivers exactly "hello"
(the PING is invisible and reassembly is undisturbed) and sends exactly one
PONG carrying the PING's payload — but with `mask := false`, unmasked
despite the client role. -/
theorem c6_pong_unmasked :
    recv_entire_frame
        ([1, 2, 104, 101] ++ [137, 2, 97, 98] ++ [128, 3, 108, 108, 111]) true =
      { result := some (.str ['h', 'e', 'l', 'l', 'o']), status := 1000,
        reason := .str [], writerClosed := false,
        sent := [⟨false, _PONG, [97, 98], false⟩], wsClosed := false } :=
  rfl

/-!
C7: client handshake validation (protocol.py lines 417-423).
-/

/-- C7: when the server response has no `Sec-WebSocket-Accept` header, the
guard `if key is None` (which tests the request key, never `None`) does not
fire, and the check instead raises `AttributeError` from
`None.encode()` — not the claimed `ProtocolError`; a present-but-wrong
header does raise `ProtocolError`. -/
theorem c7_missing_accept_header (digest : String → String) (key : String) :
    clientAcceptCheck digest key none = .attributeError ∧
    clientAcceptCheck (fun _ => "right") key (some "wrong") = .protocolErrorMismatch :=
  ⟨rfl, rfl⟩

/-!
C8: `connect` scheme and port selection (protocol.py lines 332-344).
-/

/-- C8: for the URL `wss://example.com/` the parsed scheme is `"wss"`, so
`url.scheme.startswith('wss://')` is false: `connect` computes port 80 —
not 443 — and `use_ssl = False` (which is in any case never passed to
`open_connection`).  For `ws://` URLs the port-80 default the claim states
does hold. -/
theorem c8_wss_port_and_tls :
    urlparse_scheme "wss://example.com/" = "wss" ∧
    connect_params (urlparse_scheme "wss://example.com/") none = (80, false) ∧
    connect_params (urlparse_scheme "ws://example.com/") none = (80, false) ∧
    connect_params (urlparse_scheme "ws://example.com:8080/") (some 8080) = (8080, false) :=
  ⟨by decide, by decide, by decide, by decide⟩

/-!
C5: the cumulative reassembly bound.  For text messages the source checks
`len(_frag_buffer)` — the number of decoded chunks while fragments arrive,
and the number of decoded *characters* after the final fragment — never
the summed payload byte length.  A text message of two 20,000,000-byte
fragments (10,000,000 two-byte UTF-8 characters each) sums to 40,000,000
payload bytes > `MAX_PAYLOAD` = 33,554,432, yet decodes to 20,000,000
characters and is delivered in full, with no 1009 close.
-/

/-- A list of `n` repetitions of `0xC3 0xA9`, the UTF-8 encoding of U+00E9. -/
def repPair : Nat → List Nat
  | 0 => []
  | n + 1 => 195 :: 169 :: repPair n

theorem repPair_length (n : Nat) : (repPair n).length = 2 * n := by
  induction n with
  | zero => rfl
  | succ k ih =>
    simp [repPair, ih]
    omega

theorem utf8Core_repPair (n : Nat) (final : Bool) :
    utf8Core (repPair n) final = .ok (List.replicate n (Char.ofNat 233), []) := by
  induction n with
  | zero => cases final <;> rfl
  | succ k ih =>
    show utf8Core (195 :: 169 :: repPair k) final = _
    rw [utf8Core.eq_def]
    simp [-List.reduceReplicate, ih, utf8Cons, List.replicate_succ]

/-- The second frame of the C5 stream: a final CONTINUATION
(`fin = 1`, opcode 0) carrying 20,000,000 payload bytes. -/
def c5tail : List Nat := 128 :: 127 :: (pack8 20000000 ++ (repPair 10000000 ++ []))

/-- The C5 stream: a TEXT fragment (`fin = 0`, opcode 1) of 20,000,000
bytes followed by `c5tail`. -/
def c5stream : List Nat := 1 :: 127 :: (pack8 20000000 ++ (repPair 10000000 ++ c5tail))

theorem repPair_c5_length : (repPair 10000000).length = 20000000 := by
  rw [repPair_length]

theorem recv_frame_c5a :
    recv_frame c5stream = .ok ((false, 1, 20000000, repPair 10000000), c5tail) := by
  have h := recv_frame_ext8 1 (repPair 10000000) c5tail rfl
    (by rw [repPair_c5_length]; norm_num [_WEBSOCKET_MAX_PAYLOAD]) rfl
  rw [repPair_c5_length] at h
  exact h

theorem recv_frame_c5b :
    recv_frame c5tail = .ok ((true, 0, 20000000, repPair 10000000), []) := by
  have h := recv_frame_ext8 128 (repPair 10000000) [] rfl
    (by rw [repPair_c5_length]; norm_num [_WEBSOCKET_MAX_PAYLOAD]) rfl
  rw [repPair_c5_length] at h
  exact h

/-- The loop state after the first C5 fragment. -/
def c5st1 : LoopSt :=
  { fragStart := true, fragType := 1,
    fragBuf := .text [List.replicate 10000000 (Char.ofNat 233)], decPending := [],
    wsClosed := false, wsMask := false, sent := [] }

/-- A TEXT frame with `fin = 0` starts text reassembly: the fragment is
decoded non-final, a nonempty decoded chunk is buffered. -/
theorem recv_step_text_start (frame : List Nat) (st : LoopSt) (cs : List Char)
    (p : List Nat) (len : Nat)
    (hdec : utf8Core frame false = .ok (cs, p)) (hne : cs ≠ []) :
    recv_step (false, _TEXT, len, frame) st =
      .cont { st with
              fragStart := true,
              fragType := _TEXT,
              fragBuf := .text [cs],
              decPending := p } := by
  simp only [recv_step]
  rw [if_neg (by decide : ¬ _TEXT = _CLOSE), if_true]
  simp only [fragStep]
  rw [if_pos (by decide : _TEXT ≠ _STREAM)]
  rw [if_neg (by decide : ¬ (_TEXT = _PING ∨ _TEXT = _PONG ∨ _TEXT = _CLOSE))]
  rw [if_true]
  rw [utf8IncDecode, List.nil_append, hdec]
  dsimp only
  rw [if_neg hne]
  rw [if_neg (by norm_num [_WEBSOCKET_MAX_PAYLOAD] : ¬ ([cs].length > _WEBSOCKET_MAX_PAYLOAD))]

/-- A final CONTINUATION during text reassembly: the last fragment is
decoded final, the chunks are joined, and the message is returned when the
joined character count is within the bound. -/
theorem recv_step_final_cont_text (frame : List Nat) (st : LoopSt)
    (chunks : List (List Char)) (cs : List Char) (p : List Nat) (len : Nat)
    (hfs : st.fragStart = true) (hft : st.fragType = _TEXT)
    (hfb : st.fragBuf = .text chunks)
    (hdec : utf8Core (st.decPending ++ frame) true = .ok (cs, p))
    (hjoin : (chunks ++ [cs]).flatten.length ≤ _WEBSOCKET_MAX_PAYLOAD) :
    recv_step (true, _STREAM, len, frame) st =
      .ret (.str (chunks ++ [cs]).flatten) st := by
  simp only [recv_step]
  rw [if_neg (by decide : ¬ _STREAM = _CLOSE)]
  rw [if_neg (by decide : ¬ (true = false))]
  simp only [finStep]
  rw [if_true, hfs, hft, hfb]
  rw [if_neg (by decide : ¬ (true = false))]
  rw [if_pos (rfl : _TEXT = _TEXT)]
  dsimp only
  rw [utf8IncDecode, hdec]
  dsimp only
  rw [if_neg (by omega : ¬ ((chunks ++ [cs]).flatten.length > _WEBSOCKET_MAX_PAYLOAD))]


theorem c5_rep_ne_nil : List.replicate 10000000 (Char.ofNat 233) ≠ [] := by
  simp [-List.reduceReplicate]

theorem c5_step1 :
    recv_step (false, 1, 20000000, repPair 10000000) (initSt false) = .cont c5st1 :=
  recv_step_text_start (repPair 10000000) (initSt false)
    (List.replicate 10000000 (Char.ofNat 233)) [] 20000000
    (utf8Core_repPair 10000000 false) c5_rep_ne_nil

theorem c5_flatten :
    (([List.replicate 10000000 (Char.ofNat 233)] ++
        [List.replicate 10000000 (Char.ofNat 233)]) : List (List Char)).flatten =
      List.replicate 20000000 (Char.ofNat 233) := by
  rw [List.cons_append, List.nil_append, List.flatten_cons, List.flatten_cons,
    List.flatten_nil, List.append_nil, ← List.replicate_add]

theorem c5_step2 :
    recv_step (true, 0, 20000000, repPair 10000000) c5st1 =
      .ret (.str (List.replicate 20000000 (Char.ofNat 233))) c5st1 := by
  have hdec : utf8Core (c5st1.decPending ++ repPair 10000000) true =
      .ok (List.replicate 10000000 (Char.ofNat 233), []) := by
    have hp : c5st1.decPending = ([] : List Nat) := rfl
    rw [hp, List.nil_append]
    exact utf8Core_repPair 10000000 true
  have hjoin : (([List.replicate 10000000 (Char.ofNat 233)] ++
      [List.replicate 10000000 (Char.ofNat 233)]) : List (List Char)).flatten.length ≤
      _WEBSOCKET_MAX_PAYLOAD := by
    rw [c5_flatten, List.length_replicate]
    norm_num [_WEBSOCKET_MAX_PAYLOAD]
  have h := recv_step_final_cont_text (repPair 10000000) c5st1
    [List.replicate 10000000 (Char.ofNat 233)] (List.replicate 10000000 (Char.ofNat 233))
    [] 20000000 rfl rfl rfl hdec hjoin
  rw [c5_flatten] at h
  exact h

theorem c5_h2 :
    recv_loop 2 c5stream (initSt false) =
      .msg (.str (List.replicate 20000000 (Char.ofNat 233))) c5st1 :=
  (recv_loop_cont recv_frame_c5a c5_step1).trans
    (recv_loop_ret recv_frame_c5b c5_step2)

theorem c5_hge : 2 ≤ c5stream.length + 1 := by
  rw [show c5stream = 1 :: 127 :: (pack8 20000000 ++ (repPair 10000000 ++ c5tail)) from rfl]
  rw [List.length_cons, List.length_cons]
  generalize (pack8 20000000 ++ (repPair 10000000 ++ c5tail)).length = n
  omega

theorem c5_hne2 : recv_loop 2 c5stream (initSt false) ≠ .fuelOut := by
  intro hc
  rw [c5_h2] at hc
  exact LoopOut.noConfusion hc


theorem recv_entire_frame_msg {s : List Nat} {mask : Bool} {m : PyData} {st : LoopSt}
    (h : recv_loop (s.length + 1) s (initSt mask) = .msg m st) :
    recv_entire_frame s mask =
      { result := some m, status := 1000, reason := .str [], writerClosed := false,
        sent := st.sent, wsClosed := st.wsClosed } := by
  simp only [recv_entire_frame]
  rw [h]

theorem c5_recv_result :
    recv_entire_frame c5stream false =
      { result := some (.str (List.replicate 20000000 (Char.ofNat 233))), status := 1000,
        reason := .str [], writerClosed := false, sent := [], wsClosed := false } :=
  (recv_entire_frame_msg ((recv_loop_mono c5_hne2 c5_hge).trans c5_h2)).trans rfl


/-- C5: a text message sent as two fragments of 20,000,000 payload bytes
each (10,000,000 two-byte UTF-8 characters per fragment) — summed payload
40,000,000 bytes, above `MAX_PAYLOAD` = 33,554,432 — is delivered in full
to the caller with no 1009 close and no transport teardown: the text path
bounds the chunk count while fragments arrive and the decoded character
count (here 20,000,000) at the end, never the summed payload bytes. -/
theorem c5_oversized_text_delivered :
    (recv_entire_frame c5stream false).result =
      some (.str (List.replicate 20000000 (Char.ofNat 233))) ∧
    (recv_entire_frame c5stream false).status = 1000 ∧
    (recv_entire_frame c5stream false).writerClosed = false ∧
    (repPair 10000000).length + (repPair 10000000).length > _WEBSOCKET_MAX_PAYLOAD := by
  refine ⟨?_, ?_, ?_, ?_⟩
  · rw [c5_recv_result]
  · rw [c5_recv_result]
  · rw [c5_recv_result]
  · rw [repPair_c5_length]
    norm_num [_WEBSOCKET_MAX_PAYLOAD]

end Asyncws
